import Mathlib

/-!
Shallow embedding of
`mlflow/server/js/src/experiment-tracking/actions/ModelGatewayActions.ts`.

The file defines three Redux async action creators for the model-gateway
feature.  Each creator builds a request descriptor (gateway path + JSON
body), delegates to the shared proxy client (`MlflowService.gatewayProxyGet`
or `MlflowService.gatewayProxyPost`), and wraps the resulting pending
promise in an action object `{ type, payload, meta }`.

Modelling choices:
* JSON values are an inductive `Json`; the JavaScript `undefined` value,
  which can occur as a property value in a request body (`{ filter: filter }`
  with `filter` omitted), is `Json.undef`.
* Effects are explicit state passing over a `World` that carries the uuid
  stream consumed by `getUUID`, the clock read by `performance.now()`, and
  the log of proxy-client calls made so far.
* A promise returned by the proxy client is a token `Promise` recording the
  index of the call (its position in the log) and the call descriptor.  The
  transport's eventual outcome for each call is an assignment
  `settle : Nat → Except String Json`; `Promise.outcome` is the outcome a
  promise delivers under such an assignment.  Since the creators attach the
  client's promise unchanged, a rejection (`Except.error`) reaches the
  action payload unchanged.
-/

/-- A JSON-like value as it appears in request bodies.  `undef` is the
JavaScript `undefined` value bound to an object property. -/
inductive Json where
  | str : String → Json
  | obj : List (String × Json) → Json
  | undef : Json

/-- The request descriptor passed to the gateway proxy client: a gateway
path and a JSON body, mirroring the `{ gateway_path, json_data }` argument
object in the source. -/
structure ProxyRequest where
  gateway_path : String
  json_data : Json

/-- HTTP method of a proxy call. -/
inductive HttpMethod where
  | get
  | post

/-- One call made to the proxy client: method plus request descriptor. -/
structure ProxyCall where
  method : HttpMethod
  request : ProxyRequest

/-- The pending promise returned by the proxy client for one call:
`callIndex` is the call's position in the world's call log, `call` the call
it belongs to. -/
structure Promise where
  callIndex : Nat
  call : ProxyCall

/-- The ambient effect state: the stream of uuids `getUUID` draws from and
how many have been consumed, the clock read by `performance.now()`, and the
log of proxy-client calls made so far. -/
structure World where
  nextUuid : Nat → String
  uuidCount : Nat
  now : Nat
  calls : List ProxyCall

/-- `getUUID` from `common/utils/ActionUtils`: returns the next value of the
uuid stream and advances it. -/
def getUUID (w : World) : String × World :=
  (w.nextUuid w.uuidCount, { w with uuidCount := w.uuidCount + 1 })

namespace MlflowService

/-- `MlflowService.gatewayProxyGet`: performs a GET proxy call with the
given request descriptor and returns its pending promise.  The call is
appended to the world's call log; the promise is the token for exactly that
call. -/
def gatewayProxyGet (r : ProxyRequest) (w : World) : Promise × World :=
  (⟨w.calls.length, ⟨HttpMethod.get, r⟩⟩,
   { w with calls := w.calls ++ [⟨HttpMethod.get, r⟩] })

/-- `MlflowService.gatewayProxyPost`: performs a POST proxy call with the
given request descriptor and returns its pending promise. -/
def gatewayProxyPost (r : ProxyRequest) (w : World) : Promise × World :=
  (⟨w.calls.length, ⟨HttpMethod.post, r⟩⟩,
   { w with calls := w.calls ++ [⟨HttpMethod.post, r⟩] })

end MlflowService

/-- The outcome a pending promise delivers once the transport settles it:
exactly what the transport assigns to its call, with no local catch,
transformation or retry anywhere in between. -/
def Promise.outcome (p : Promise) (settle : Nat → Except String Json) :
    Except String Json :=
  settle p.callIndex

/-- The `meta` field of a produced action.  `startTime` is `none` when the
source's object literal has no `startTime` key. -/
structure ActionMeta where
  id : String
  startTime : Option Nat

/-- A produced action object `{ type, payload, meta }`. -/
structure ReduxAction where
  type : String
  payload : Promise
  meta : ActionMeta

/-- Modelled from the spec: the `ModelGatewayRoute` interface lives in
`experiment-tracking/sdk/ModelGatewayService.ts`, which is not part of this
slice.  Per the spec's data model a route is "identified by a `name`" and
carries further backend-owned metadata, modelled here as an opaque `extra`
field. -/
structure ModelGatewayRoute where
  name : String
  extra : Json

/-- The JSON value a possibly-omitted string argument contributes to an
object literal: `undefined` when omitted, the string otherwise. -/
def jsonOfUndefOr : Option String → Json
  | none => Json.undef
  | some s => Json.str s

def SEARCH_MODEL_GATEWAY_ROUTES_API : String := "SEARCH_MODEL_GATEWAY_ROUTES_API"

/-- `searchModelGatewayRoutesApi` from `ModelGatewayActions.ts`: GET
`api/2.0/gateway/routes/` with body `{ filter: filter }`, wrapped in an
action with a fresh correlation id.  Fields evaluate in source order:
`payload` (the proxy call) before `meta` (the uuid draw). -/
def searchModelGatewayRoutesApi (filter : Option String) (w : World) :
    ReduxAction × World :=
  let pw := MlflowService.gatewayProxyGet
    ⟨"api/2.0/gateway/routes/", Json.obj [("filter", jsonOfUndefOr filter)]⟩ w
  let uw := getUUID pw.2
  (⟨SEARCH_MODEL_GATEWAY_ROUTES_API, pw.1, ⟨uw.1, none⟩⟩, uw.2)

def GET_MODEL_GATEWAY_ROUTE_API : String := "GET_MODEL_GATEWAY_ROUTE_API"

/-- `getModelGatewayRouteApi` from `ModelGatewayActions.ts`: GET
`api/2.0/gateway/routes/{routeName}` with empty body `{}`. -/
def getModelGatewayRouteApi (routeName : String) (w : World) :
    ReduxAction × World :=
  let pw := MlflowService.gatewayProxyGet
    ⟨"api/2.0/gateway/routes/" ++ routeName, Json.obj []⟩ w
  let uw := getUUID pw.2
  (⟨GET_MODEL_GATEWAY_ROUTE_API, pw.1, ⟨uw.1, none⟩⟩, uw.2)

def QUERY_MODEL_GATEWAY_ROUTE_API : String := "QUERY_MODEL_GATEWAY_ROUTE_API"

/-- `queryModelGatewayRouteApi` from `ModelGatewayActions.ts`: POST
`api/2.0/gateway/${route.name}/invocations` with body `{ data }`, and a
`meta` that additionally records `startTime: performance.now()`.  In source
order the proxy call happens first, then `getUUID()`, then
`performance.now()` (which reads the clock and leaves the world unchanged). -/
def queryModelGatewayRouteApi (route : ModelGatewayRoute) (data : Json)
    (w : World) : ReduxAction × World :=
  let pw := MlflowService.gatewayProxyPost
    ⟨"api/2.0/gateway/" ++ route.name ++ "/invocations",
     Json.obj [("data", data)]⟩ w
  let uw := getUUID pw.2
  (⟨QUERY_MODEL_GATEWAY_ROUTE_API, pw.1, ⟨uw.1, some uw.2.now⟩⟩, uw.2)

/-- One invocation of any of the three action creators, with its arguments. -/
inductive CreatorCall where
  | search (filter : Option String)
  | getRoute (routeName : String)
  | query (route : ModelGatewayRoute) (data : Json)

/-- Run one creator invocation on a world. -/
def runCreator : CreatorCall → World → ReduxAction × World
  | CreatorCall.search f, w => searchModelGatewayRoutesApi f w
  | CreatorCall.getRoute n, w => getModelGatewayRouteApi n w
  | CreatorCall.query r d, w => queryModelGatewayRouteApi r d w

/-- A concrete world whose uuid stream is injective (every `getUUID` call
yields a fresh value). -/
def wFresh : World :=
  ⟨fun n => String.mk (List.replicate n 'u'), 0, 0, []⟩

/-- A concrete world used to evaluate creators at concrete inputs. -/
def w0 : World :=
  ⟨fun n => Nat.repr n, 0, 0, []⟩

/-- C1: for every route and query payload, `queryModelGatewayRouteApi`
produces an action whose payload is a POST to
`api/2.0/gateway/{route.name}/invocations` with JSON body `{ data }`; in
particular, route `{name := "chat"}` and payload `{prompt := "hi"}` yield
the path `api/2.0/gateway/chat/invocations` and body
`{data := {prompt := "hi"}}`. -/
theorem query_route_builds_invocation_post (route : ModelGatewayRoute)
    (data : Json) (w : World) :
    (queryModelGatewayRouteApi route data w).1.payload.call =
      ⟨HttpMethod.post,
       ⟨"api/2.0/gateway/" ++ route.name ++ "/invocations",
        Json.obj [("data", data)]⟩⟩ ∧
    (queryModelGatewayRouteApi ⟨"chat", Json.obj []⟩
        (Json.obj [("prompt", Json.str "hi")]) w0).1.payload.call =
      ⟨HttpMethod.post,
       ⟨"api/2.0/gateway/chat/invocations",
        Json.obj [("data", Json.obj [("prompt", Json.str "hi")])]⟩⟩ :=
  ⟨rfl, rfl⟩

/-- C2: for every filter string, `searchModelGatewayRoutesApi` produces an
action whose payload is a GET to `api/2.0/gateway/routes/` whose JSON body
binds the key `filter` to that filter string verbatim. -/
theorem search_routes_includes_filter_verbatim (filter : String) (w : World) :
    (searchModelGatewayRoutesApi (some filter) w).1.payload.call =
      ⟨HttpMethod.get,
       ⟨"api/2.0/gateway/routes/",
        Json.obj [("filter", Json.str filter)]⟩⟩ :=
  rfl

/-- C3: for every route name, `getModelGatewayRouteApi` produces an action
whose payload is a GET with path `api/2.0/gateway/routes/{name}`; in
particular, name `"chat"` yields the path `api/2.0/gateway/routes/chat`. -/
theorem get_route_builds_name_path (name : String) (w : World) :
    ((getModelGatewayRouteApi name w).1.payload.call.method = HttpMethod.get ∧
     (getModelGatewayRouteApi name w).1.payload.call.request.gateway_path =
       "api/2.0/gateway/routes/" ++ name) ∧
    (getModelGatewayRouteApi "chat" w0).1.payload.call.request.gateway_path =
      "api/2.0/gateway/routes/chat" :=
  ⟨⟨rfl, rfl⟩, rfl⟩

/-- C9: for every route name, the request descriptor built by
`getModelGatewayRouteApi` has `json_data` equal to the empty object; the
name appears only in the path, never in the body. -/
theorem get_route_body_is_empty_object (name : String) (w : World) :
    (getModelGatewayRouteApi name w).1.payload.call.request.json_data =
      Json.obj [] :=
  rfl

/-- C10: when the optional filter is omitted, `searchModelGatewayRoutesApi`
still issues the call, with a JSON body binding `filter` to the undefined
value, rather than omitting the body or skipping the call. -/
theorem search_routes_omitted_filter_body (w : World) :
    (searchModelGatewayRoutesApi none w).1.payload.call.request.json_data =
      Json.obj [("filter", Json.undef)] ∧
    (searchModelGatewayRoutesApi none w).2.calls =
      w.calls ++ [(searchModelGatewayRoutesApi none w).1.payload.call] :=
  ⟨rfl, rfl⟩

/-- C5: `queryModelGatewayRouteApi` records the call start time: its
action's `meta.startTime` is the clock value at creation, while the
search and get creators produce a `meta` with no `startTime`. -/
theorem query_route_records_start_time (route : ModelGatewayRoute)
    (data : Json) (filter : Option String) (name : String) (w : World) :
    (queryModelGatewayRouteApi route data w).1.meta.startTime = some w.now ∧
    (searchModelGatewayRoutesApi filter w).1.meta.startTime = none ∧
    (getModelGatewayRouteApi name w).1.meta.startTime = none :=
  ⟨rfl, rfl, rfl⟩

/-- C6: no creator performs local error handling: each action's payload is
exactly the promise returned by the proxy client for its request, and under
any transport outcome assignment the payload's outcome is exactly what the
transport assigns to that call, so a transport rejection reaches the
action's payload unchanged. -/
theorem creators_no_local_error_handling (filter : Option String)
    (name : String) (route : ModelGatewayRoute) (data : Json) (w : World)
    (settle : Nat → Except String Json) :
    (searchModelGatewayRoutesApi filter w).1.payload =
      (MlflowService.gatewayProxyGet
        ⟨"api/2.0/gateway/routes/",
         Json.obj [("filter", jsonOfUndefOr filter)]⟩ w).1 ∧
    (getModelGatewayRouteApi name w).1.payload =
      (MlflowService.gatewayProxyGet
        ⟨"api/2.0/gateway/routes/" ++ name, Json.obj []⟩ w).1 ∧
    (queryModelGatewayRouteApi route data w).1.payload =
      (MlflowService.gatewayProxyPost
        ⟨"api/2.0/gateway/" ++ route.name ++ "/invocations",
         Json.obj [("data", data)]⟩ w).1 ∧
    (searchModelGatewayRoutesApi filter w).1.payload.outcome settle =
      settle w.calls.length ∧
    (getModelGatewayRouteApi name w).1.payload.outcome settle =
      settle w.calls.length ∧
    (queryModelGatewayRouteApi route data w).1.payload.outcome settle =
      settle w.calls.length :=
  ⟨rfl, rfl, rfl, rfl, rfl, rfl⟩

/-- C7: for every input, each creator makes exactly one proxy-client call
(the call log grows by exactly that call), returns an action whose `type`
is its exported constant, and whose `payload` is the pending promise of
that single call. -/
theorem creators_single_call_and_type (filter : Option String)
    (name : String) (route : ModelGatewayRoute) (data : Json) (w : World) :
    ((searchModelGatewayRoutesApi filter w).2.calls =
       w.calls ++ [(searchModelGatewayRoutesApi filter w).1.payload.call] ∧
     (searchModelGatewayRoutesApi filter w).1.type =
       SEARCH_MODEL_GATEWAY_ROUTES_API ∧
     (searchModelGatewayRoutesApi filter w).1.payload.callIndex =
       w.calls.length) ∧
    ((getModelGatewayRouteApi name w).2.calls =
       w.calls ++ [(getModelGatewayRouteApi name w).1.payload.call] ∧
     (getModelGatewayRouteApi name w).1.type = GET_MODEL_GATEWAY_ROUTE_API ∧
     (getModelGatewayRouteApi name w).1.payload.callIndex = w.calls.length) ∧
    ((queryModelGatewayRouteApi route data w).2.calls =
       w.calls ++ [(queryModelGatewayRouteApi route data w).1.payload.call] ∧
     (queryModelGatewayRouteApi route data w).1.type =
       QUERY_MODEL_GATEWAY_ROUTE_API ∧
     (queryModelGatewayRouteApi route data w).1.payload.callIndex =
       w.calls.length) :=
  ⟨⟨rfl, rfl, rfl⟩, ⟨rfl, rfl, rfl⟩, ⟨rfl, rfl, rfl⟩⟩

/-- C8: `queryModelGatewayRouteApi` depends on its route argument only
through `name`: two routes with equal `name` yield identical request
descriptors (same method, gateway path and JSON body) for any payload. -/
theorem query_route_depends_only_on_name (r1 r2 : ModelGatewayRoute)
    (data : Json) (w : World) (h : r1.name = r2.name) :
    (queryModelGatewayRouteApi r1 data w).1.payload.call =
      (queryModelGatewayRouteApi r2 data w).1.payload.call := by
  simp only [queryModelGatewayRouteApi, MlflowService.gatewayProxyPost, h]

/-- Witness for C8 at concrete inputs: two routes sharing the name
`"chat"` but differing in their other metadata produce the same proxy
call. -/
theorem query_route_depends_only_on_name_witness :
    (ModelGatewayRoute.mk "chat" (Json.obj [])).name =
      (ModelGatewayRoute.mk "chat" (Json.str "other")).name ∧
    (queryModelGatewayRouteApi (ModelGatewayRoute.mk "chat" (Json.obj []))
        (Json.str "hi") w0).1.payload.call =
      (queryModelGatewayRouteApi (ModelGatewayRoute.mk "chat" (Json.str "other"))
        (Json.str "hi") w0).1.payload.call :=
  ⟨rfl, query_route_depends_only_on_name _ _ _ _ rfl⟩

/-- Every creator draws its correlation id from the uuid stream at the
current position. -/
theorem runCreator_meta_id (c : CreatorCall) (w : World) :
    (runCreator c w).1.meta.id = w.nextUuid w.uuidCount := by
  cases c <;> rfl

/-- No creator replaces the uuid stream. -/
theorem runCreator_nextUuid (c : CreatorCall) (w : World) :
    (runCreator c w).2.nextUuid = w.nextUuid := by
  cases c <;> rfl

/-- Each creator consumes exactly one uuid. -/
theorem runCreator_uuidCount (c : CreatorCall) (w : World) :
    (runCreator c w).2.uuidCount = w.uuidCount + 1 := by
  cases c <;> rfl

/-- C4: for any two successive invocations of any of the three action
creators, under the precondition that `getUUID` yields a fresh value on
every call (the uuid stream is injective), the two produced actions carry
distinct `meta.id` values. -/
theorem creators_fresh_meta_ids_distinct (c1 c2 : CreatorCall) (w : World)
    (hfresh : Function.Injective w.nextUuid) :
    (runCreator c1 w).1.meta.id ≠
      (runCreator c2 (runCreator c1 w).2).1.meta.id := by
  have h1 := runCreator_meta_id c1 w
  have h2 := runCreator_meta_id c2 (runCreator c1 w).2
  rw [runCreator_nextUuid, runCreator_uuidCount] at h2
  rw [h1, h2]
  intro h
  have := hfresh h
  omega

/-- Witness for C4 at concrete inputs: on the concrete world `wFresh`,
whose uuid stream is injective, a list-routes call followed by a get-route
call produce different `meta.id` values. -/
theorem creators_fresh_meta_ids_distinct_witness :
    Function.Injective wFresh.nextUuid ∧
    (runCreator (CreatorCall.search none) wFresh).1.meta.id ≠
      (runCreator (CreatorCall.getRoute "chat")
        (runCreator (CreatorCall.search none) wFresh).2).1.meta.id := by
  have hinj : Function.Injective wFresh.nextUuid := by
    intro a b h
    simp only [wFresh] at h
    have := congrArg (fun s => s.data.length) h
    simpa using this
  exact ⟨hinj, creators_fresh_meta_ids_distinct _ _ wFresh hinj⟩
